import Mathlib

/-!
Verification of the AR_prestito PDF constructor (pdf_costructor.py).

Shallow embedding conventions:
* Python floats are idealised as exact rationals (ℚ).  Python `round(x, n)`
  is modelled by its documented semantics, round-half-to-even on the exact
  value (`pyRound`).
* Fallible Python code is modelled with `Except PyErr`; `PyErr` mirrors the
  exception kinds the source can actually raise on the modelled paths
  (ZeroDivisionError from divisions, KeyError from dict lookups, and a
  generic carrier for failures of the external rasteriser).
* External collaborators (template file loader, WeasyPrint rasteriser,
  PyPDF2 page merger, PIL image metrics, the signature-image loader and the
  system clock) are passed in as function parameters, following spec section 6.
-/

set_option maxRecDepth 65536

namespace ARPrestito

attribute [local semireducible] Rat.mul Rat.inv Rat.add Rat.sub Rat.ofScientific

/-- Exception kinds raised by the modelled Python code paths. -/
inductive PyErr where
  | zeroDivision : PyErr
  | keyError : String → PyErr
  | renderError : String → PyErr
  deriving DecidableEq

/-- Floor of a rational as an integer (denominator is always positive, so
floor division of numerator by denominator is the mathematical floor). -/
def ratFloor (x : ℚ) : ℤ := x.num.fdiv (x.den : ℤ)

/-- Python builtin round(x, nd) on the exact value: round half to even
(banker's rounding) at nd decimal places. -/
def pyRound (x : ℚ) (nd : ℕ) : ℚ :=
  let scale : ℚ := (10 : ℚ) ^ nd
  let y := x * scale
  let n := ratFloor y
  let frac := y - (n : ℚ)
  let m : ℤ :=
    if frac < 1/2 then n
    else if 1/2 < frac then n + 1
    else if n % 2 = 0 then n else n + 1
  (m : ℚ) / scale

/-- Python float power with an integer exponent.  Raises ZeroDivisionError
for 0.0 raised to a negative power, otherwise total on our inputs. -/
def pyPow (b : ℚ) (m : ℤ) : Except PyErr ℚ :=
  if b = 0 ∧ m < 0 then .error .zeroDivision else .ok (b ^ m)

/-- monthly_payment from pdf_costructor.py lines 25..32:
    r = (annual_rate / 100) / 12
    if r == 0: return round(amount / months, 2)
    num = amount * r * (1 + r) ** months
    den = (1 + r) ** months - 1
    return round(num / den, 2)
Divisions by zero (months == 0, or den == 0) raise ZeroDivisionError. -/
def monthly_payment (amount : ℚ) (months : ℤ) (annual_rate : ℚ) :
    Except PyErr ℚ :=
  let r := annual_rate / 100 / 12
  if r = 0 then
    if months = 0 then .error .zeroDivision
    else .ok (pyRound (amount / (months : ℚ)) 2)
  else
    match pyPow (1 + r) months with
    | .error e => .error e
    | .ok p =>
      let num := amount * r * p
      let den := p - 1
      if den = 0 then .error .zeroDivision
      else .ok (pyRound (num / den) 2)

/-- One row of the amortization schedule (the dict appended at
pdf_costructor.py lines 54..60). -/
structure Entry where
  month : ℕ
  payment : ℚ
  interest : ℚ
  principal : ℚ
  balance : ℚ
  deriving DecidableEq

/-- The loop body of calculate_amortization_schedule (lines 42..60),
parameterised by the number of remaining iterations.  `remaining = 0` inside
the body marks the final month (`i == months` in the source), where the
principal is forced to the running balance and the payment recomputed. -/
def amortRun (monthly_rate : ℚ) : ℕ → ℚ → ℚ → ℕ → List Entry
  | 0, _, _, _ => []
  | remaining + 1, payment, balance, month =>
    let interest := balance * monthly_rate
    let principal := if remaining = 0 then balance else payment - interest
    let pay := if remaining = 0 then balance + interest else payment
    let newBal0 := balance - principal
    let newBal := if newBal0 < 1/100 then 0 else newBal0
    { month := month, payment := pay, interest := interest,
      principal := principal, balance := newBal }
      :: amortRun monthly_rate remaining pay newBal (month + 1)

/-- calculate_amortization_schedule from pdf_costructor.py lines 35..61.
For months ≤ 0 the Python range is empty, matching `Int.toNat`. -/
def calculate_amortization_schedule (amount : ℚ) (months : ℤ) (rate : ℚ) :
    Except PyErr (List Entry) :=
  let monthly_rate := rate / 100 / 12
  match monthly_payment amount months rate with
  | .error e => .error e
  | .ok payment => .ok (amortRun monthly_rate months.toNat payment amount 1)

/-- Sum of the principal portions of a schedule. -/
def sumPrincipals (s : List Entry) : ℚ := (s.map Entry.principal).sum

/-- Modelled from the spec (section 4.1 wording only, for comparison with the
code): rounding to 2 decimals with round-half-UP semantics. -/
def specRoundHalfUp2 (x : ℚ) : ℚ := (ratFloor (x * 100 + 1/2) : ℚ) / 100

/-! ## Grid coordinate mapper and overlay composer (_add_images_to_pdf) -/

/-- The reportlab `mm` unit in points: 72 / 25.4. -/
def mmUnit : ℚ := 360/127

/-- Cell width constant, pdf_costructor.py line 309 (210/25 = 8.4 mm). -/
def cell_width_mm : ℚ := 210/25

/-- Cell height constant, line 310 (297/35 ≈ 8.49 mm). -/
def cell_height_mm : ℚ := 297/35

/-- Row of a 1-based cell index on the implicit 25-column grid, as computed
inline throughout _add_images_to_pdf: (cell − 1) // 25. -/
def cellRow (cell : ℕ) : ℕ := (cell - 1) / 25

/-- Column of a 1-based cell index: (cell − 1) % 25. -/
def cellCol (cell : ℕ) : ℕ := (cell - 1) % 25

/-- The center-of-cell mapping the overlay code computes inline for the seal
and signature anchors (lines 344..345, 364..365, 410..411, 431..432), in mm:
x = (col + 0.5)·cellWidth, y = 297 − (row + 0.5)·cellHeight.  A pure
function: the same cell index always yields the same coordinates. -/
def cellCenter (cell : ℕ) : ℚ × ℚ :=
  (((cellCol cell : ℚ) + 1/2) * cell_width_mm,
   297 - ((cellRow cell : ℚ) + 1/2) * cell_height_mm)

/-- Modelled from the spec (section 4.2 wording, for comparison with the
code): row = (cellIndex−1) div 25, col = (cellIndex−1) mod 25,
x = (col + 0.5)·(210/25), y = 297 − (row + 0.5)·(297/35). -/
def specCellToCenter (cell : ℕ) : ℚ × ℚ :=
  ((((cell - 1) % 25 : ℕ) + (1:ℚ)/2) * (210/25),
   297 - (((cell - 1) / 25 : ℕ) + (1:ℚ)/2) * (297/35))

/-- Pixel dimensions returned by the external image metrics provider
(PIL Image.open). -/
structure ImageFile where
  width : ℚ
  height : ℚ
  deriving DecidableEq

/-- One drawImage call recorded on the overlay canvas: asset path and the
x, y, width, height arguments, in points. -/
structure DrawCmd where
  file : String
  x : ℚ
  y : ℚ
  w : ℚ
  h : ℚ
  deriving DecidableEq

/-- The overlay draw commands per physical page (the canvas pages built at
lines 304..491), one list per page.  `loadImage` is the external image
metrics provider; a failed load aborts the whole computation, like the
exception from PIL Image.open does.  Pixel sizes are converted at 0.264583
mm per pixel as in the source.  For template names outside the four known
ones no branch draws anything and no page is emitted; what happens to such
an empty overlay is then up to the external merge collaborator (in the real
system PdfReader fails on the empty buffer and the try/except fallback
returns the base bytes). -/
def overlayPages (loadImage : String → Except String ImageFile)
    (template_name : String) : Except String (List (List DrawCmd)) :=
  if template_name = "garanzia" then do
    let company ← loadImage "company.png"
    let company_width_mm := company.width * (264583/1000000)
    let company_height_mm := company.height * (264583/1000000)
    let company_scaled_width := company_width_mm / (133/100)
    let company_scaled_height := company_height_mm / (133/100)
    let x_27_center := ((cellCol 27 : ℚ) + 5 + 1/2 + 5/4 + 1 + 1/3 - 3 - 1/2)
        * cell_width_mm * mmUnit
    let y_27_center := (297 - ((cellRow 27 : ℚ) + 1/2 + 1 + 1/2) * cell_height_mm)
        * mmUnit
    let x_27 := x_27_center - company_scaled_width * mmUnit / 2
    let y_27 := y_27_center - company_scaled_height * mmUnit / 2
    let sealImg ← loadImage "seal.png"
    let seal_scaled_width := sealImg.width * (264583/1000000) / 5
    let seal_scaled_height := sealImg.height * (264583/1000000) / 5
    let x_590 := (cellCenter 590).1 * mmUnit - seal_scaled_width * mmUnit / 2
    let y_590 := (cellCenter 590).2 * mmUnit - seal_scaled_height * mmUnit / 2
    let sing1 ← loadImage "sing_1.png"
    let sing1_scaled_width := sing1.width * (264583/1000000) / 5
    let sing1_scaled_height := sing1.height * (264583/1000000) / 5
    let x_593 := (cellCenter 593).1 * mmUnit - sing1_scaled_width * mmUnit / 2
    let y_593 := (cellCenter 593).2 * mmUnit - sing1_scaled_height * mmUnit / 2
    pure [[⟨"company.png", x_27, y_27, company_scaled_width * mmUnit,
              company_scaled_height * mmUnit⟩,
           ⟨"seal.png", x_590, y_590, seal_scaled_width * mmUnit,
              seal_scaled_height * mmUnit⟩,
           ⟨"sing_1.png", x_593, y_593, sing1_scaled_width * mmUnit,
              sing1_scaled_height * mmUnit⟩]]
  else if template_name = "carta" ∨ template_name = "approvazione" then do
    let img ← loadImage "company.png"
    let img_width_mm := img.width * (264583/1000000)
    let img_height_mm := img.height * (264583/1000000)
    let scaled_width := img_width_mm / 2 * (144/100)
    let scaled_height := img_height_mm / 2 * (144/100)
    let row_52 : ℚ := (cellRow 52 : ℚ) + 1
    let col_52 : ℚ := (cellCol 52 : ℚ) + 1
    let x_52 := (col_52 * cell_width_mm - 1/2 * cell_width_mm
        - 1/6 * cell_width_mm + 1/4 * cell_width_mm) * mmUnit
    let y_52 := (297 - (row_52 * cell_height_mm + cell_height_mm)
        + 1/2 * cell_height_mm + 1/4 * cell_height_mm - 1 * cell_height_mm)
        * mmUnit
    let seal_cell : ℕ := if template_name = "carta" then 740 else 590
    let sign_cell : ℕ := if template_name = "carta" then 768 else 593
    let sealImg ← loadImage "seal.png"
    let seal_scaled_width := sealImg.width * (264583/1000000) / 5
    let seal_scaled_height := sealImg.height * (264583/1000000) / 5
    let x_seal := (cellCenter seal_cell).1 * mmUnit - seal_scaled_width * mmUnit / 2
    let y_seal := (cellCenter seal_cell).2 * mmUnit - seal_scaled_height * mmUnit / 2
    let sing1 ← loadImage "sing_1.png"
    let sing1_scaled_width := sing1.width * (264583/1000000) / 5
    let sing1_scaled_height := sing1.height * (264583/1000000) / 5
    let x_sign := (cellCenter sign_cell).1 * mmUnit - sing1_scaled_width * mmUnit / 2
    let y_sign := (cellCenter sign_cell).2 * mmUnit - sing1_scaled_height * mmUnit / 2
    pure [[⟨"company.png", x_52, y_52, scaled_width * mmUnit,
              scaled_height * mmUnit⟩,
           ⟨"seal.png", x_seal, y_seal, seal_scaled_width * mmUnit,
              seal_scaled_height * mmUnit⟩,
           ⟨"sing_1.png", x_sign, y_sign, sing1_scaled_width * mmUnit,
              sing1_scaled_height * mmUnit⟩]]
  else if template_name = "contratto" then do
    let img ← loadImage "company.png"
    let img_width_mm := img.width * (264583/1000000)
    let img_height_mm := img.height * (264583/1000000)
    let scaled_width := img_width_mm / 2 * (144/100)
    let scaled_height := img_height_mm / 2 * (144/100)
    let row_52 : ℚ := (cellRow 52 : ℚ) + 1
    let col_52 : ℚ := (cellCol 52 : ℚ) + 1
    let x_52 := (col_52 * cell_width_mm - 1/2 * cell_width_mm
        - 1/6 * cell_width_mm + 1/4 * cell_width_mm) * mmUnit
    let y_52 := (297 - (row_52 * cell_height_mm + cell_height_mm)
        + 1/2 * cell_height_mm + 1/4 * cell_height_mm - 1 * cell_height_mm)
        * mmUnit
    let logo ← loadImage "logo.png"
    let logo_scaled_width := logo.width * (264583/1000000) / 9
    let logo_scaled_height := logo.height * (264583/1000000) / 9
    let x_71 := ((cellCol 71 : ℚ) - 2 + 4 - 3/2) * cell_width_mm * mmUnit
    let y_71 := (297 - ((cellRow 71 : ℚ) * cell_height_mm + cell_height_mm)
        - 1/4 * cell_height_mm - 1 * cell_height_mm) * mmUnit
    pure [[⟨"company.png", x_52, y_52, scaled_width * mmUnit,
              scaled_height * mmUnit⟩,
           ⟨"logo.png", x_71, y_71, logo_scaled_width * mmUnit,
              logo_scaled_height * mmUnit⟩],
          [⟨"logo.png", x_71, y_71, logo_scaled_width * mmUnit,
              logo_scaled_height * mmUnit⟩]]
  else
    pure []

/-- _add_images_to_pdf, lines 295..520.  The whole body is inside
try/except: any failure, from an asset load or from the external page-merge
engine, falls back to returning the input rasterised bytes unchanged
(lines 516..520).  `merge` stands for the PdfReader/PdfWriter merge of the
base document with the overlay pages, an external collaborator. -/
def _add_images_to_pdf (loadImage : String → Except String ImageFile)
    (merge : String → List (List DrawCmd) → Except String String)
    (pdf_bytes : String) (template_name : String) : String :=
  match (do
      let pages ← overlayPages loadImage template_name
      merge pdf_bytes pages : Except String String) with
  | .ok out => out
  | .error _ => pdf_bytes

/-- The asset files each template's overlay branch attempts to open. -/
def requiredAssets (template_name : String) : List String :=
  if template_name = "garanzia" then ["company.png", "seal.png", "sing_1.png"]
  else if template_name = "carta" ∨ template_name = "approvazione" then
    ["company.png", "seal.png", "sing_1.png"]
  else if template_name = "contratto" then ["company.png", "logo.png"]
  else []

/-! ## String utilities with Python str semantics, on char lists -/

/-- Does `s` begin with `pat`. -/
def lstartsWith : List Char → List Char → Bool
  | [], _ => true
  | _ :: _, [] => false
  | p :: ps, c :: cs => p = c && lstartsWith ps cs

/-- Python str.replace(old, new, 1) on char lists: replace only the leftmost
occurrence.  The pattern `p :: ps` is nonempty by construction. -/
def lreplaceFirst (p : Char) (ps repl : List Char) : List Char → List Char
  | [] => []
  | c :: cs =>
    if lstartsWith (p :: ps) (c :: cs) then repl ++ cs.drop ps.length
    else c :: lreplaceFirst p ps repl cs

/-- Python str.replace(old, new) on char lists: replace every occurrence,
scanning left to right and continuing after each replacement (inserted text
is not rescanned).  The fuel only bounds the number of scan steps; since
every step consumes at least one input character, any fuel at least the
input length gives the untruncated result. -/
def lreplaceAllAux (p : Char) (ps repl : List Char) : ℕ → List Char → List Char
  | 0, l => l
  | _, [] => []
  | fuel + 1, c :: cs =>
    if lstartsWith (p :: ps) (c :: cs) then
      repl ++ lreplaceAllAux p ps repl fuel (cs.drop ps.length)
    else c :: lreplaceAllAux p ps repl fuel cs

/-- Python str.replace(old, new).  (The source never replaces an empty
pattern, which Python treats specially; the guard keeps the model total.) -/
def pyReplaceAll (s pat repl : String) : String :=
  match pat.data with
  | [] => s
  | p :: ps => ⟨lreplaceAllAux p ps repl.data s.data.length s.data⟩

/-- Python str.replace(old, new, 1). -/
def pyReplaceFirst (s pat repl : String) : String :=
  match pat.data with
  | [] => s
  | p :: ps => ⟨lreplaceFirst p ps repl.data s.data⟩

/-- The ordered substitution loop of _generate_pdf_with_images
(lines 256..258 and 281..282): for each (old, new) pair in order replace the
first remaining occurrence of `old`. -/
def applyReplacements (reps : List (String × String)) (html : String) : String :=
  reps.foldl (fun h pr => pyReplaceFirst h pr.1 pr.2) html

/-- Index of the last occurrence of `pat` (Python str.rfind), if any. -/
def lastMatchPos (pat : List Char) : List Char → ℕ → Option ℕ
  | [], _ => none
  | c :: cs, i =>
    match lastMatchPos pat cs (i + 1) with
    | some j => some j
    | none => if lstartsWith pat (c :: cs) then some i else none

/-- Python str.rfind for a nonempty pattern (None stands for −1). -/
def pyRfind (s pat : String) : Option ℕ := lastMatchPos pat.data s.data 0

/-- Python str whitespace (ASCII subset, which is all the templates use). -/
def isPySpace (c : Char) : Bool :=
  c = ' ' || c = '\t' || c = '\n' || c = '\r' || c = '\x0b' || c = '\x0c'

/-- Python str.rstrip(). -/
def pyRstrip (s : String) : String :=
  ⟨(s.data.reverse.dropWhile isPySpace).reverse⟩

/-- Python slice s[:n]. -/
def pyTake (s : String) (n : ℕ) : String := ⟨s.data.take n⟩

/-! ## A small regex engine with Python re semantics

fix_html_layout and _generate_pdf_with_images feed a handful of patterns to
re.sub.  Only the constructs those patterns use are implemented: literals,
greedy counted single-character classes (catching `[^>]*`, `\s*`, `-{10,}`,
`[0-9]{2}`, `[0-9]{4,}` and the like), capturing groups, one two-way
alternation, a greedy `(...)+` repetition of a sequence, and the `$` end
anchor (end of string, or just before a terminal newline).  Matching is
backtracking leftmost-first with greedy preference, exactly re's strategy:
`matchNode` enumerates every way a node can match, most-preferred first, and
`matchSeq` chains them. -/

inductive RNode where
  | lit : List Char → RNode
  | cls : (Char → Bool) → ℕ → Option ℕ → RNode
  | group : List RNode → RNode
  | alt : List RNode → List RNode → RNode
  | rep1 : List RNode → RNode
  | dollar : RNode

/-- Length of the maximal prefix of `s` satisfying `p`. -/
def clsRunLen (p : Char → Bool) : List Char → ℕ
  | [] => 0
  | c :: cs => if p c then clsRunLen p cs + 1 else 0

/-- hi, hi−1, ..., lo (empty if hi < lo): greedy preference order for a
counted class. -/
def descRange (lo hi : ℕ) : List ℕ :=
  (List.range (hi + 1 - lo)).map (fun i => hi - i)

/-- The backtracking matcher state: a node sequence still to match, a
single node, or an in-progress greedy repetition. -/
inductive MatchJob where
  | seq : List RNode → MatchJob
  | node : RNode → MatchJob
  | rep : List RNode → MatchJob

/-- All ways, most preferred first, to match a job against a prefix of `s`;
each result carries the remaining input and the captures.  For a `seq`,
node matches chain left to right; for a greedy `cls`, longer runs come
first; `alt` prefers its left branch; `rep` prefers more iterations and
stops rather than loops when an iteration consumes nothing: Python re
backtracking order.  The fuel only bounds the recursion depth, which is at
most the pattern node count per consumed character; every caller passes
enough for the untruncated result (see `matchFuel`). -/
def matchGo : ℕ → MatchJob → List Char → List (List Char) →
    List (List Char × List (List Char))
  | 0, _, _, _ => []
  | fuel + 1, job, s, caps =>
    match job with
    | .seq [] => [(s, caps)]
    | .seq (n :: rest) =>
      (matchGo fuel (.node n) s caps).flatMap
        (fun pr => matchGo fuel (.seq rest) pr.1 pr.2)
    | .node (.lit l) =>
      if lstartsWith l s then [(s.drop l.length, caps)] else []
    | .node (.cls p lo hi) =>
      let run := clsRunLen p s
      let top := match hi with | none => run | some h => min h run
      (descRange lo top).map (fun k => (s.drop k, caps))
    | .node (.group nodes) =>
      (matchGo fuel (.seq nodes) s caps).map
        (fun pr => (pr.1, pr.2 ++ [s.take (s.length - pr.1.length)]))
    | .node (.alt a b) =>
      matchGo fuel (.seq a) s caps ++ matchGo fuel (.seq b) s caps
    | .node (.rep1 nodes) => matchGo fuel (.rep nodes) s caps
    | .node .dollar => if s = [] ∨ s = ['\n'] then [(s, caps)] else []
    | .rep nodes =>
      (matchGo fuel (.seq nodes) s caps).flatMap
        (fun pr =>
          if pr.1.length < s.length then
            matchGo fuel (.rep nodes) pr.1 pr.2 ++ [pr]
          else [pr])

/-- Ample fuel for `matchGo` on input `s`: 64 exceeds the node count of
every pattern the source uses, and each repetition iteration of those
patterns consumes at least one character. -/
def matchFuel (s : List Char) : ℕ := (s.length + 2) * 64

/-- All matches of the pattern at the start of `s`, preference order. -/
def matchSeqTop (pat : List RNode) (s : List Char) :
    List (List Char × List (List Char)) :=
  matchGo (matchFuel s) (.seq pat) s []

/-- Leftmost match of the pattern: splits the input into the text before the
match, the matched text, the captures, and the rest after the match. -/
def reFindSplit (pat : List RNode) (s : List Char) :
    Option (List Char × List Char × List (List Char) × List Char) :=
  match (matchSeqTop pat s).head? with
  | some pr => some ([], s.take (s.length - pr.1.length), pr.2, pr.1)
  | none =>
    match s with
    | [] => none
    | c :: cs =>
      match reFindSplit pat cs with
      | none => none
      | some (pre, mtxt, caps, rest) => some (c :: pre, mtxt, caps, rest)

/-- One piece of a re.sub replacement template: literal text or a group
backreference. -/
inductive ReplPart where
  | str : List Char → ReplPart
  | ref : ℕ → ReplPart

/-- Instantiate a replacement template against the captures of a match. -/
def substCaps (caps : List (List Char)) (tmpl : List ReplPart) : List Char :=
  tmpl.flatMap (fun part =>
    match part with
    | .str l => l
    | .ref i => (caps.get? (i - 1)).getD [])

/-- Python re.sub on char lists: replace every non-overlapping match,
scanning left to right and continuing after each match.  The fuel bounds the
number of replacements; each match of the patterns used here consumes at
least one character, so `s.length + 1` is always enough. -/
def reSubAllAux (pat : List RNode) (tmpl : List ReplPart) :
    ℕ → List Char → List Char
  | 0, s => s
  | f + 1, s =>
    match reFindSplit pat s with
    | none => s
    | some (pre, mtxt, caps, rest) =>
      if mtxt = [] then s
      else pre ++ substCaps caps tmpl ++ reSubAllAux pat tmpl f rest

/-- Python re.sub(pattern, replacement, s). -/
def reSubAll (pat : List RNode) (tmpl : List ReplPart) (s : String) : String :=
  ⟨reSubAllAux pat tmpl (s.data.length + 1) s.data⟩

/-! ## Money and number formatting -/

/-- Decimal digits of a natural number, most significant first. -/
def natDigits (n : ℕ) : List Char := Nat.toDigits 10 n

/-- Insert a comma every three digits; the input is reversed digits. -/
def group3Aux : List Char → List Char
  | [] => []
  | [a] => [a]
  | [a, b] => [a, b]
  | [a, b, c] => [a, b, c]
  | a :: b :: c :: rest => a :: b :: c :: ',' :: group3Aux rest

/-- Python fixed-point float formatting f"{x:.nd f}" (and, when `grouped`,
f"{x:,.nd f}"): round half-to-even at nd decimals, then render with the
integer part optionally comma-grouped and exactly nd fraction digits. -/
def formatFixed (x : ℚ) (nd : ℕ) (grouped : Bool) : String :=
  let y := pyRound x nd
  let scaled : ℤ := ratFloor (y * (10 : ℚ) ^ nd)
  let sign := if scaled < 0 then "-" else ""
  let a := scaled.natAbs
  let ip := a / 10 ^ nd
  let fp := a % 10 ^ nd
  let ipStr : String :=
    if grouped then ⟨(group3Aux (natDigits ip).reverse).reverse⟩
    else ⟨natDigits ip⟩
  let fpDigits := natDigits fp
  let fpStr : String := ⟨List.replicate (nd - fpDigits.length) '0' ++ fpDigits⟩
  if nd = 0 then sign ++ ipStr else sign ++ ipStr ++ "." ++ fpStr

/-- format_money, lines 15..17: f"{amount:,.2f}".replace(",", " "). -/
def format_money (amount : ℚ) : String :=
  pyReplaceAll (formatFixed amount 2 true) "," " "

/-- f"{x:.2f}". -/
def formatF2 (x : ℚ) : String := formatFixed x 2 false

/-- f"{x:.10f}". -/
def formatF10 (x : ℚ) : String := formatFixed x 10 false

/-! ## Template CSS blocks (the css_fixes literals of fix_html_layout) -/

def css_garanzia : String :=
  "\n    <style>\n    @page \x7b\n        size: A4;\n        margin: 1cm;\n        border: 4pt solid #a52b4c;\n        padding: 0;\n    \x7d\n    .c8 \x7b padding: 0 2cm !important; max-width: none !important; \x7d\n    * \x7b page-break-after: avoid !important; page-break-inside: avoid !important; page-break-before: avoid !important; \x7d\n    @page:nth(2) \x7b display: none !important; \x7d\n    </style>\n    "

def css_carta_approvazione : String :=
  "\n    <style>\n    @page \x7b\n        size: A4;\n        margin: 1cm;\n        border: 2pt solid #a52b4c;\n        padding: 0;\n    \x7d\n    body \x7b font-family: \"Roboto Mono\", monospace; font-size: 9pt; line-height: 1.0; margin: 0; padding: 0 2cm; overflow: hidden; \x7d\n    * \x7b page-break-after: avoid !important; page-break-inside: avoid !important; page-break-before: avoid !important; overflow: hidden !important; \x7d\n    .c10 \x7b height: auto !important; \x7d\n    .c12, .c9, .c20, .c22, .c8 \x7b border: none !important; padding: 2pt !important; margin: 0 !important; width: 100% !important; max-width: none !important; \x7d\n    .c12 \x7b max-width: none !important; padding: 0 !important; margin: 0 !important; width: 100% !important; height: auto !important; overflow: hidden !important; border: none !important; \x7d\n    .c6, .c0, .c2, .c3 \x7b margin: 1pt 0 !important; padding: 0 !important; text-align: left !important; width: 100% !important; line-height: 1.0 !important; overflow: hidden !important; \x7d\n    table \x7b margin: 1pt 0 !important; padding: 0 !important; width: 100% !important; font-size: 9pt !important; border-collapse: collapse !important; \x7d\n    td, th \x7b padding: 1pt !important; margin: 0 !important; font-size: 9pt !important; line-height: 1.0 !important; \x7d\n    .c15, .c1, .c16, .c6 \x7b background-color: transparent !important; background: none !important; \x7d\n    ul, ol, li \x7b margin: 0 !important; padding: 0 !important; line-height: 1.0 !important; \x7d\n    h1, h2, h3, h4, h5, h6 \x7b margin: 2pt 0 !important; padding: 0 !important; font-size: 10pt !important; line-height: 1.0 !important; \x7d\n    </style>\n    "

def css_contratto : String :=
  "\n    <style>\n    @page \x7b\n        size: A4;\n        margin: 1cm;\n        border: 4pt solid #a52b4c;\n        padding: 0;\n    \x7d\n    \n    body \x7b\n        font-family: \"Roboto Mono\", monospace;\n        font-size: 10pt;\n        line-height: 1.0;\n        margin: 0;\n        padding: 0 2cm;\n    \x7d\n    \n    /* Убираем рамки из HTML-контейнеров для предотвращения двойных рамок */\n    .c17, .c23 \x7b border: none !important; padding: 0 !important; \x7d\n    \n    /* Убираем рамки */\n    .c20 \x7b border: none !important; padding: 3mm !important; margin: 0 !important; \x7d\n    \n    /* Разрешаем перенос страниц */\n    .page-break \x7b page-break-before: always; \x7d\n    \n    p \x7b margin: 2pt 0 !important; padding: 0 !important; line-height: 1.0 !important; \x7d\n    div \x7b margin: 0 !important; padding: 0 !important; \x7d\n    table \x7b margin: 3pt 0 !important; font-size: 10pt !important; \x7d\n    .c22 \x7b max-width: none !important; padding: 0 !important; margin: 0 !important; border: none !important; \x7d\n    .c14, .c25 \x7b margin-left: 0 !important; \x7d\n    .c15 \x7b font-size: 14pt !important; margin: 4pt 0 !important; font-weight: 700 !important; \x7d\n    .c10 \x7b font-size: 12pt !important; margin: 3pt 0 !important; font-weight: 700 !important; \x7d\n    .c6:empty \x7b height: 0pt !important; margin: 0 !important; padding: 0 !important; \x7d\n    .c3 \x7b margin: 1pt 0 !important; \x7d\n    .c1, .c16 \x7b background-color: transparent !important; background: none !important; \x7d\n\n    /* ТАБЛИЦА С ПОДПИСЯМИ И ПЕЧАТЬЮ */\n    .signatures-tables-wrapper \x7b\n        position: relative !important;\n        width: 100% !important;\n        margin-top: 15pt !important;\n        margin-bottom: 10pt !important;\n        page-break-inside: avoid !important;\n    \x7d\n\n    .signatures-table-base \x7b\n        width: 100% !important;\n        border-collapse: collapse !important;\n        border: none !important;\n        background: transparent !important;\n        position: relative !important;\n        z-index: 10 !important;\n    \x7d\n\n    .signatures-table-overlay \x7b\n        width: 100% !important;\n        border-collapse: collapse !important;\n        border: none !important;\n        background: transparent !important;\n        position: absolute !important;\n        top: 0 !important;\n        left: 25mm !important;\n        z-index: 20 !important;\n    \x7d\n\n    .signatures-table-base td, .signatures-table-overlay td \x7b\n        border: none !important;\n        padding: 10pt !important;\n        background: transparent !important;\n        vertical-align: bottom !important;\n        text-align: center !important;\n    \x7d\n\n    /* Разрыв страницы перед пунктом 7 */\n    .section-7-firme \x7b\n        page-break-before: always !important;\n        margin-top: 0 !important;\n    \x7d\n\n    /* Печать - увеличена на 30% */\n    .seal-img \x7b\n        display: block !important;\n        margin: 0 auto !important;\n        max-width: 97.5mm !important;\n        max-height: 42.25mm !important;\n        width: auto !important;\n        height: auto !important;\n    \x7d\n\n    /* Подписи - увеличены на 60% */\n    .sing-img \x7b\n        display: block !important;\n        margin: 0 auto !important;\n        max-width: 80mm !important;\n        max-height: 32mm !important;\n        width: auto !important;\n        height: auto !important;\n    \x7d\n    </style>\n    "

def amortRow (item : Entry) : String :=
  "\n<tr class=\"c7\">\n<td class=\"c5\" style=\"border: 1pt solid #666666; padding: 3pt; text-align: center;\"><span class=\"c3\">"
  ++ (toString item.month)
  ++ "</span></td>\n<td class=\"c5\" style=\"border: 1pt solid #666666; padding: 3pt; text-align: right;\"><span class=\"c9 c8\">&euro; "
  ++ (format_money item.payment)
  ++ "</span></td>\n<td class=\"c5\" style=\"border: 1pt solid #666666; padding: 3pt; text-align: right;\"><span class=\"c9 c8\">&euro; "
  ++ (format_money item.interest)
  ++ "</span></td>\n<td class=\"c5\" style=\"border: 1pt solid #666666; padding: 3pt; text-align: right;\"><span class=\"c9 c8\">&euro; "
  ++ (format_money item.principal)
  ++ "</span></td>\n<td class=\"c5\" style=\"border: 1pt solid #666666; padding: 3pt; text-align: right;\"><span class=\"c9 c8\">&euro; "
  ++ (format_money (if item.balance > 0 then item.balance else 0))
  ++ "</span></td>\n</tr>\n"

def amortTablePrefix : String :=
  "\n<table class=\"c18\" style=\"width: 100%; border-collapse: collapse; margin: 10pt 0;\">\n<tr class=\"c7\">\n<td class=\"c4\" style=\"border: 1pt solid #666666; padding: 5pt; text-align: center; font-weight: 700;\"><span class=\"c3\">Mese</span></td>\n<td class=\"c4\" style=\"border: 1pt solid #666666; padding: 5pt; text-align: center; font-weight: 700;\"><span class=\"c3\">Rata</span></td>\n<td class=\"c4\" style=\"border: 1pt solid #666666; padding: 5pt; text-align: center; font-weight: 700;\"><span class=\"c3\">Interessi</span></td>\n<td class=\"c4\" style=\"border: 1pt solid #666666; padding: 5pt; text-align: center; font-weight: 700;\"><span class=\"c3\">Capitale</span></td>\n<td class=\"c4\" style=\"border: 1pt solid #666666; padding: 5pt; text-align: center; font-weight: 700;\"><span class=\"c3\">Residuo</span></td>\n</tr>\n"

def amortTableSuffix : String :=
  "\n</table>\n"

def sealTablePre : String :=
  "\n<table class=\"signatures-table-base\">\n<tr>\n<td style=\"width: 33.33%;\">\n<img src=\""

def sealTablePost : String :=
  "\" alt=\"Sigillo Mediatore\" class=\"seal-img\" style=\"display: block; margin: 0 auto;\" />\n</td>\n<td style=\"width: 33.33%;\"></td>\n<td style=\"width: 33.33%;\"></td>\n</tr>\n</table>\n"

def sigTablePre : String :=
  "\n<table class=\"signatures-table-overlay\">\n<tr>\n<td style=\"width: 33.33%;\">\n<img src=\""

def sigTableMid : String :=
  "\" alt=\"Firma Banca\" class=\"sing-img\" style=\"display: block; margin: 0 auto;\" />\n</td>\n<td style=\"width: 33.33%;\">\n<img src=\""

def sigTablePost : String :=
  "\" alt=\"Firma Mediatore\" class=\"sing-img\" style=\"display: block; margin: 0 auto;\" />\n</td>\n<td style=\"width: 33.33%;\"></td>\n</tr>\n</table>\n"

def sigWrapPre : String :=
  "\n<div class=\"signatures-tables-wrapper\">\n"

def sigWrapMid : String :=
  "\n"

def sigWrapPost : String :=
  "\n</div>\n"

/-! ## The concrete regex patterns fix_html_layout feeds to re.sub -/

/-- Character class [^>]. -/
def notGt (c : Char) : Bool := c != '>'

/-- Character class [^<]. -/
def notLt (c : Char) : Bool := c != '<'

/-- Character class [^}]. -/
def notRBrace (c : Char) : Bool := c != '\x7d'

/-- Character class [a-zA-Z0-9_-]. -/
def isWordDash (c : Char) : Bool :=
  c.isAlpha || c.isDigit || c = '_' || c = '-'

/-- Character class [5-9]. -/
def isFiveToNine (c : Char) : Bool := '5' ≤ c && c ≤ '9'

/-- Character class [0-9]. -/
def isDigitCh (c : Char) : Bool := c.isDigit

/-- Pattern <img[^>]*> (line 533). -/
def imgTagPat : List RNode :=
  [.lit "<img".data, .cls notGt 0 none, .lit ">".data]

/-- Pattern <span[^>]*overflow:[^>]*>[^<]*</span> (line 534). -/
def spanOverflowPat : List RNode :=
  [.lit "<span".data, .cls notGt 0 none, .lit "overflow:".data,
   .cls notGt 0 none, .lit ">".data, .cls notLt 0 none, .lit "</span>".data]

/-- Shared shape <span style="overflow: hidden[^>]*><img alt="" src="images/IMG"[^>]*></span> used by the carta and contratto image-cleanup patterns. -/
def overlaySpanPat (img : String) : List RNode :=
  [.lit "<span style=\"overflow: hidden".data, .cls notGt 0 none,
   .lit ("><img alt=\"\" src=\"images/" ++ img ++ "\"").data,
   .cls notGt 0 none, .lit "></span>".data]

/-- logo_pattern, line 700. -/
def logoPat : List RNode :=
  [.lit "<p class=\"c12\">".data] ++ overlaySpanPat "image1.png"
    ++ [.lit "</p>".data]

/-- seal_pattern, line 702. -/
def sealSpanPat : List RNode := overlaySpanPat "image2.png"

/-- signature_pattern, line 704. -/
def sigSpanPat : List RNode := overlaySpanPat "image3.png"

/-- middle_images_pattern, line 686. -/
def middleImagesPat : List RNode :=
  [.lit "<p class=\"c3\">".data] ++ overlaySpanPat "image1.png"
    ++ overlaySpanPat "image2.png" ++ overlaySpanPat "image4.png"
    ++ [.lit "</p>".data]

/-- End-anchored literal pattern of line 690. -/
def endDivTrailPat : List RNode :=
  [.lit "<div><p class=\"c6 c18\"><span class=\"c7 c23\"></span></p></div>".data,
   .dollar]

/-- End-anchored literal pattern of line 691. -/
def endP1TrailPat : List RNode :=
  [.lit "<p class=\"c3 c6\"><span class=\"c7 c12\"></span></p>".data, .dollar]

/-- End-anchored literal pattern of line 692. -/
def endP2TrailPat : List RNode :=
  [.lit "<p class=\"c6 c24\"><span class=\"c7 c12\"></span></p>".data, .dollar]

/-- Pattern (<p[^>]*><span[^>]*></span></p>\s*)+$ (line 720).  The
repetition group number is not referenced by the empty replacement, so the
repeated sequence is modelled without a capture. -/
def trailingPPat : List RNode :=
  [.rep1 [.lit "<p".data, .cls notGt 0 none, .lit "><span".data,
          .cls notGt 0 none, .lit "></span></p>".data, .cls isPySpace 0 none],
   .dollar]

/-- Pattern (<div[^>]*></div>\s*)+$ (line 721). -/
def trailingDivPat : List RNode :=
  [.rep1 [.lit "<div".data, .cls notGt 0 none, .lit "></div>".data,
          .cls isPySpace 0 none],
   .dollar]

/-- The universal height-cleanup pattern of line 732:
\.([a-zA-Z0-9_-]+)\{[^}]*height:\s*([5-9][0-9]{2}|[0-9]{4,})pt[^}]*\} -/
def heightPat : List RNode :=
  [.lit ".".data, .group [.cls isWordDash 1 none], .lit "\x7b".data,
   .cls notRBrace 0 none, .lit "height:".data, .cls isPySpace 0 none,
   .group [.alt [.cls isFiveToNine 1 (some 1), .cls isDigitCh 2 (some 2)]
               [.cls isDigitCh 4 none]],
   .lit "pt".data, .cls notRBrace 0 none, .lit "\x7d".data]

/-- Its replacement .\1{height:auto;} -/
def heightRepl : List ReplPart :=
  [.str ".".data, .ref 1, .str "\x7bheight:auto;\x7d".data]

/-- The section-7 page-break pattern of lines 244..248:
(<p class="c2">\s*<span class="c1">-{10,}</span>\s*</p>)
(\s*<p class="c2">\s*<span class="c12 c6">7\. Firme</span>\s*</p>) -/
def firmePat : List RNode :=
  [.group [.lit "<p class=\"c2\">".data, .cls isPySpace 0 none,
           .lit "<span class=\"c1\">".data, .cls (fun c => c == '-') 10 none,
           .lit "</span>".data, .cls isPySpace 0 none, .lit "</p>".data],
   .group [.cls isPySpace 0 none, .lit "<p class=\"c2\">".data,
           .cls isPySpace 0 none, .lit "<span class=\"c12 c6\">7. Firme</span>".data,
           .cls isPySpace 0 none, .lit "</p>".data]]

/-- Replacement for firmePat: a fixed paragraph plus backreference \2. -/
def firmeRepl : List ReplPart :=
  [.str ("<p class=\"c2 section-7-firme\"><span class=\"c1\">" ++
    "------------------------------------------</span></p>").data,
   .ref 2]

/-! ## fix_html_layout -/

/-- fix_html_layout, lines 523..737, applied to the already-loaded template
text (the file read of lines 526..528 is the external template loader).
The garanzia branch strips img and overflow spans and injects its CSS; the
carta/approvazione branch and the contratto branch inject their CSS and run
their respective cleanup substitutions; every non-garanzia branch then
re-applies the c5/c9 replacements (lines 724..726) and the universal height
regex (line 732). -/
def fix_html_layout (template_name : String) (file_text : String) : String :=
  if template_name = "garanzia" then
    let html := reSubAll imgTagPat [] file_text
    let html := reSubAll spanOverflowPat [.str "<br><br>".data] html
    pyReplaceAll html "</head>" (css_garanzia ++ "</head>")
  else
    let css_fixes := if template_name = "carta" ∨ template_name = "approvazione"
      then css_carta_approvazione else css_contratto
    let html := pyReplaceAll file_text "</head>" (css_fixes ++ "</head>")
    let html :=
      if template_name = "contratto" then
        let html := reSubAll middleImagesPat [] html
        let html := reSubAll endDivTrailPat [] html
        let html := reSubAll endP1TrailPat [] html
        let html := reSubAll endP2TrailPat [] html
        let html := pyReplaceAll html "class=\"c13\""
          "class=\"c13\" style=\"height: auto !important;\""
        pyReplaceAll html "class=\"c19\""
          "class=\"c19\" style=\"height: auto !important;\""
      else if template_name = "carta" ∨ template_name = "approvazione" then
        let html := reSubAll logoPat [] html
        let html := reSubAll sealSpanPat [] html
        let html := reSubAll sigSpanPat [] html
        let html := pyReplaceAll html
          "<div><p class=\"c6 c18\"><span class=\"c7 c23\"></span></p></div>" ""
        let html := pyReplaceAll html
          "<p class=\"c3 c6\"><span class=\"c7 c12\"></span></p>" ""
        let html := pyReplaceAll html
          "<p class=\"c6 c24\"><span class=\"c7 c12\"></span></p>" ""
        let html := pyReplaceAll html
          "<p class=\"c6\"><span class=\"c7\"></span></p>" ""
        let html := pyReplaceAll html "class=\"c13\""
          "class=\"c13\" style=\"height: auto !important;\""
        let html := pyReplaceAll html "class=\"c19\""
          "class=\"c19\" style=\"height: auto !important;\""
        let html := pyReplaceAll html "class=\"c5\""
          "class=\"c5\" style=\"height: auto !important;\""
        let html := pyReplaceAll html "class=\"c9\""
          "class=\"c9\" style=\"height: auto !important;\""
        match pyRfind html "</body>" with
        | none => html
        | some body_end =>
          let content := pyRstrip (pyTake html body_end)
          let content := reSubAll trailingPPat [] content
          let content := reSubAll trailingDivPat [] content
          content ++ "\n</body></html>"
      else html
    let html := pyReplaceAll html "class=\"c5\""
      "class=\"c5\" style=\"height: auto !important;\""
    let html := pyReplaceAll html "class=\"c9\""
      "class=\"c9\" style=\"height: auto !important;\""
    reSubAll heightPat heightRepl html

/-! ## The document pipeline -/

/-- The loan-terms dict passed to the generation entry points: the fields
the code reads or writes, where `none` means the key is absent. -/
structure LoanData where
  name : Option String := none
  amount : Option ℚ := none
  tan : Option ℚ := none
  taeg : Option ℚ := none
  duration : Option ℤ := none
  payment : Option ℚ := none
  amortization_table : Option String := none
  deriving DecidableEq

/-- data[key]: a missing key raises KeyError(key).  Spec section 7 calls
this failure kind TemplateBindingError. -/
def getKey {α : Type} (v : Option α) (key : String) : Except PyErr α :=
  match v with
  | some a => .ok a
  | none => .error (.keyError key)

/-- generate_signatures_table, lines 93..155.  `image_to_base64` models the
inner file-reading helper (external): the data URI of an asset, or none if
the file is missing.  With any image missing the function returns "". -/
def generate_signatures_table (image_to_base64 : String → Option String) :
    String :=
  match image_to_base64 "sing_1.png", image_to_base64 "sing_2.png",
      image_to_base64 "seal.png" with
  | some sing_1_data, some sing_2_data, some seal_data =>
    let seal_table := sealTablePre ++ seal_data ++ sealTablePost
    let signatures_table := sigTablePre ++ sing_2_data ++ sigTableMid
        ++ sing_1_data ++ sigTablePost
    sigWrapPre ++ seal_table ++ sigWrapMid ++ signatures_table ++ sigWrapPost
  | _, _, _ => ""

/-- generate_amortization_html, lines 64..90. -/
def generate_amortization_html (schedule : List Entry) : String :=
  amortTablePrefix ++ String.join (schedule.map amortRow) ++ amortTableSuffix

/-- _generate_pdf_with_images, lines 202..292.  `render` is the external
WeasyPrint rasteriser (the except at lines 290..292 re-raises, so failures
propagate unchanged); `loadImage` and `merge` serve _add_images_to_pdf;
`image_to_base64` serves generate_signatures_table; `today` is
format_date() (the system clock, external).  Dict accesses happen in source
order, so the KeyError for the first missing field is the one raised. -/
def _generate_pdf_with_images
    (render : String → Except PyErr String)
    (loadImage : String → Except String ImageFile)
    (merge : String → List (List DrawCmd) → Except String String)
    (image_to_base64 : String → Option String)
    (today : String)
    (html0 : String) (template_name : String) (data : LoanData) :
    Except PyErr String := do
  let html ←
    if template_name = "contratto" then do
      let tan ← getKey data.tan "tan"
      let monthly_rate := tan / 100 / 12
      let payment ← getKey data.payment "payment"
      let duration ← getKey data.duration "duration"
      let amount ← getKey data.amount "amount"
      let total_payments := payment * (duration : ℚ)
      let overpayment := total_payments - amount
      let name ← getKey data.name "name"
      let taeg ← getKey data.taeg "taeg"
      let replacements : List (String × String) :=
        [("XXX", name), ("XXX", format_money amount),
         ("XXX", formatF2 tan ++ "%"), ("XXX", formatF2 taeg ++ "%"),
         ("XXX", toString duration ++ " mesi"), ("XXX", format_money payment),
         ("11/06/2025", today), ("XXX", name)]
      let html := pyReplaceAll html0 "\x7b\x7bAMORTIZATION_TABLE\x7d\x7d"
          (data.amortization_table.getD "")
      let html := pyReplaceAll html "PAYMENT_SCHEDULE_MONTHLY_RATE"
          (formatF10 monthly_rate)
      let html := pyReplaceAll html "PAYMENT_SCHEDULE_MONTHLY_PAYMENT"
          ("&euro; " ++ format_money payment)
      let html := pyReplaceAll html "PAYMENT_SCHEDULE_TOTAL_PAYMENTS"
          ("&euro; " ++ format_money total_payments)
      let html := pyReplaceAll html "PAYMENT_SCHEDULE_OVERPAYMENT"
          ("&euro; " ++ format_money overpayment)
      let html := pyReplaceAll html
          "<div style=\"page-break-before: always;\"></div>" ""
      let html := reSubAll firmePat firmeRepl html
      let signatures_table := generate_signatures_table image_to_base64
      let html := pyReplaceAll html "<!-- SIGNATURES_TABLE_PLACEHOLDER -->"
          signatures_table
      pure (applyReplacements replacements html)
    else if template_name = "carta" then do
      let name ← getKey data.name "name"
      let amount ← getKey data.amount "amount"
      let tan ← getKey data.tan "tan"
      let duration ← getKey data.duration "duration"
      let payment ← getKey data.payment "payment"
      pure (applyReplacements
        [("XXX", name), ("XXX", format_money amount),
         ("XXX", formatF2 tan ++ "%"), ("XXX", toString duration ++ " mesi"),
         ("XXX", format_money payment)] html0)
    else if template_name = "garanzia" then do
      let name ← getKey data.name "name"
      pure (applyReplacements [("XXX", name)] html0)
    else if template_name = "approvazione" then do
      let name ← getKey data.name "name"
      let amount ← getKey data.amount "amount"
      let tan ← getKey data.tan "tan"
      pure (applyReplacements
        [("XXX", name), ("XXX", format_money amount),
         ("XXX", formatF2 tan ++ "%")] html0)
    else pure html0
  let pdf_bytes ← render html
  pure (_add_images_to_pdf loadImage merge pdf_bytes template_name)

/-- generate_contratto_pdf, lines 158..171.  `template` is the text the
external template loader returns for contratto.html.  The result pairs the
returned byte stream with the dict as the function leaves it (the source
mutates its argument in place at lines 164 and 168). -/
def generate_contratto_pdf
    (render : String → Except PyErr String)
    (loadImage : String → Except String ImageFile)
    (merge : String → List (List DrawCmd) → Except String String)
    (image_to_base64 : String → Option String)
    (today : String) (template : String) (data0 : LoanData) :
    Except PyErr (String × LoanData) := do
  let data ←
    if data0.payment.isNone then do
      let amount ← getKey data0.amount "amount"
      let duration ← getKey data0.duration "duration"
      let tan ← getKey data0.tan "tan"
      let p ← monthly_payment amount duration tan
      pure { data0 with payment := some p }
    else pure data0
  let amount ← getKey data.amount "amount"
  let duration ← getKey data.duration "duration"
  let tan ← getKey data.tan "tan"
  let schedule ← calculate_amortization_schedule amount duration tan
  let data := { data with
    amortization_table := some (generate_amortization_html schedule) }
  let html := fix_html_layout "contratto" template
  let out ← _generate_pdf_with_images render loadImage merge image_to_base64
      today html "contratto" data
  pure (out, data)

/-- generate_carta_pdf, lines 182..191, with the same conventions as
generate_contratto_pdf (it mutates the dict only by computing a missing
payment at line 188). -/
def generate_carta_pdf
    (render : String → Except PyErr String)
    (loadImage : String → Except String ImageFile)
    (merge : String → List (List DrawCmd) → Except String String)
    (image_to_base64 : String → Option String)
    (today : String) (template : String) (data0 : LoanData) :
    Except PyErr (String × LoanData) := do
  let data ←
    if data0.payment.isNone then do
      let amount ← getKey data0.amount "amount"
      let duration ← getKey data0.duration "duration"
      let tan ← getKey data0.tan "tan"
      let p ← monthly_payment amount duration tan
      pure { data0 with payment := some p }
    else pure data0
  let html := fix_html_layout "carta" template
  let out ← _generate_pdf_with_images render loadImage merge image_to_base64
      today html "carta" data
  pure (out, data)

/-- generate_approvazione_pdf, lines 194..199: no payment computation, the
dict is only read. -/
def generate_approvazione_pdf
    (render : String → Except PyErr String)
    (loadImage : String → Except String ImageFile)
    (merge : String → List (List DrawCmd) → Except String String)
    (image_to_base64 : String → Option String)
    (today : String) (template : String) (data0 : LoanData) :
    Except PyErr (String × LoanData) := do
  let html := fix_html_layout "approvazione" template
  let out ← _generate_pdf_with_images render loadImage merge image_to_base64
      today html "approvazione" data0
  pure (out, data0)

/-! ## Spec-side definitions for the substitution protocol (claim C8) -/

/-- A template text given as segments interleaved with the generic token:
segments s0, s1, ..., sn stand for s0 XXX s1 XXX ... XXX sn. -/
def interleaveX : List String → String
  | [] => ""
  | [s] => s
  | s :: rest => s ++ "XXX" ++ interleaveX rest

/-- Modelled from the spec (section 4.3 wording, for comparison with the
code): the i-th occurrence of the token receives the i-th value of the
ordered replacement list, positionally and simultaneously; occurrences
beyond the end of the value list keep the token. -/
def specSubstituted : List String → List String → String
  | [], _ => ""
  | [s], _ => s
  | s :: rest, [] => s ++ "XXX" ++ specSubstituted rest []
  | s :: rest, v :: vs => s ++ v ++ specSubstituted rest vs

/-- The text contains no letter X at all, so it can neither contain the
token nor help form a new one at a junction. -/
def noX (s : String) : Bool := s.data.all (fun c => c != 'X')

/-! ## Helper lemmas about the amortization loop -/

theorem except_toOption_eq_some {ε α : Type} (x : Except ε α) (a : α)
    (h : x.toOption = some a) : x = .ok a := by
  cases x with
  | error e => simp [Except.toOption] at h
  | ok b => simp [Except.toOption] at h; rw [h]

theorem amortRun_length (r : ℚ) :
    ∀ (k : ℕ) (p b : ℚ) (m : ℕ), (amortRun r k p b m).length = k := by
  intro k
  induction k with
  | zero => intro p b m; rfl
  | succ n ih => intro p b m; simp only [amortRun, List.length_cons, ih]

theorem amortRun_ne_nil (r : ℚ) (k : ℕ) (p b : ℚ) (m : ℕ) :
    amortRun r (k + 1) p b m ≠ [] := by
  simp [amortRun]

theorem getLast?_cons_of_ne_nil {α : Type} (a : α) (l : List α) (h : l ≠ []) :
    (a :: l).getLast? = l.getLast? := by
  cases l with
  | nil => exact absurd rfl h
  | cons b t => rfl

/-- In every nonempty run of the loop, the last row's balance is exactly 0:
on the final month the principal is forced to the running balance, the new
balance is 0, and the clamp keeps it 0. -/
theorem amortRun_getLast_balance (r : ℚ) :
    ∀ (k : ℕ) (p b : ℚ) (m : ℕ),
    ((amortRun r (k + 1) p b m).getLast?).map Entry.balance = some 0 := by
  intro k
  induction k with
  | zero =>
    intro p b m
    simp [amortRun]
  | succ n ih =>
    intro p b m
    rw [show amortRun r (n + 1 + 1) p b m =
        { month := m, payment := p, interest := b * r,
          principal := p - b * r,
          balance := if b - (p - b * r) < 1/100 then 0 else b - (p - b * r) }
        :: amortRun r (n + 1) p
             (if b - (p - b * r) < 1/100 then 0 else b - (p - b * r)) (m + 1)
      from by simp [amortRun]]
    rw [getLast?_cons_of_ne_nil _ _ (amortRun_ne_nil r n p _ (m + 1))]
    exact ih p _ (m + 1)

/-- Every row of the loop except the last records the unchanged carried
payment. -/
theorem amortRun_dropLast_payment (r : ℚ) :
    ∀ (k : ℕ) (p b : ℚ) (m : ℕ),
    ∀ e ∈ (amortRun r k p b m).dropLast, e.payment = p := by
  intro k
  induction k with
  | zero => intro p b m e he; simp [amortRun] at he
  | succ n ih =>
    intro p b m e he
    cases n with
    | zero => simp [amortRun] at he
    | succ n2 =>
      rw [show amortRun r (n2 + 1 + 1) p b m =
          { month := m, payment := p, interest := b * r,
            principal := p - b * r,
            balance := if b - (p - b * r) < 1/100 then 0 else b - (p - b * r) }
          :: amortRun r (n2 + 1) p
               (if b - (p - b * r) < 1/100 then 0 else b - (p - b * r)) (m + 1)
        from by simp [amortRun]] at he
      rw [List.dropLast_cons_of_ne_nil (amortRun_ne_nil r n2 p _ (m + 1))] at he
      rcases List.mem_cons.mp he with h1 | h2
      · rw [h1]
      · exact ih p _ (m + 1) e h2

/-- With a zero periodic rate every row records zero interest. -/
theorem amortRun_interest_zero :
    ∀ (k : ℕ) (p b : ℚ) (m : ℕ),
    ∀ e ∈ amortRun 0 k p b m, e.interest = 0 := by
  intro k
  induction k with
  | zero => intro p b m e he; simp [amortRun] at he
  | succ n ih =>
    intro p b m e he
    simp only [amortRun, mul_zero] at he
    rcases List.mem_cons.mp he with h1 | h2
    · rw [h1]
    · exact ih _ _ (m + 1) e h2

/-- Telescoping: if no intermediate balance was clamped (equivalently, every
balance before the final month stayed at or above 0.01), the principal
portions sum exactly to the opening balance. -/
theorem amortRun_sum_principal (r : ℚ) :
    ∀ (k : ℕ) (p b : ℚ) (m : ℕ),
    (∀ e ∈ (amortRun r (k + 1) p b m).dropLast, 1/100 ≤ e.balance) →
    sumPrincipals (amortRun r (k + 1) p b m) = b := by
  intro k
  induction k with
  | zero =>
    intro p b m _
    simp [amortRun, sumPrincipals]
  | succ n ih =>
    intro p b m h
    rw [show amortRun r (n + 1 + 1) p b m =
        { month := m, payment := p, interest := b * r,
          principal := p - b * r,
          balance := if b - (p - b * r) < 1/100 then 0 else b - (p - b * r) }
        :: amortRun r (n + 1) p
             (if b - (p - b * r) < 1/100 then 0 else b - (p - b * r)) (m + 1)
      from by simp [amortRun]] at h ⊢
    rw [List.dropLast_cons_of_ne_nil (amortRun_ne_nil r n p _ (m + 1))] at h
    have hhead : (1 : ℚ)/100 ≤
        (if b - (p - b * r) < 1/100 then 0 else b - (p - b * r)) := by
      exact h _ (List.mem_cons_self _ _)
    have hnoclamp : ¬ (b - (p - b * r) < 1/100) := by
      intro hc
      rw [if_pos hc] at hhead
      norm_num at hhead
    rw [if_neg hnoclamp] at h ⊢
    have htail : ∀ e ∈ (amortRun r (n + 1) p (b - (p - b * r)) (m + 1)).dropLast,
        1/100 ≤ e.balance := fun e he => h e (List.mem_cons_of_mem _ he)
    have := ih p (b - (p - b * r)) (m + 1) htail
    simp only [sumPrincipals, List.map_cons, List.sum_cons] at this ⊢
    rw [this]
    ring

/-- With a strictly positive periodic rate the annuity denominator is
nonzero, so monthly_payment succeeds for months ≥ 1 and rate ≥ 0. -/
theorem monthly_payment_ok (amount : ℚ) (months : ℤ) (rate : ℚ)
    (h1 : 1 ≤ months) (h2 : 0 ≤ rate) :
    ∃ p, monthly_payment amount months rate = .ok p := by
  unfold monthly_payment
  by_cases hr : rate / 100 / 12 = 0
  · refine ⟨pyRound (amount / (months : ℚ)) 2, ?_⟩
    rw [if_pos hr, if_neg (by omega : ¬ months = 0)]
  · have hrnn : (0:ℚ) ≤ rate / 100 / 12 := by positivity
    have hrpos : (0:ℚ) < rate / 100 / 12 := lt_of_le_of_ne hrnn (Ne.symm hr)
    have hb : (1:ℚ) < 1 + rate / 100 / 12 := by linarith
    obtain ⟨n, hn⟩ : ∃ n : ℕ, months = (n : ℤ) :=
      ⟨months.toNat, (Int.toNat_of_nonneg (by omega)).symm⟩
    have hpow : (1:ℚ) < (1 + rate / 100 / 12) ^ months := by
      rw [hn, zpow_natCast]
      exact one_lt_pow₀ hb (by omega)
    have hden : (1 + rate / 100 / 12) ^ months - 1 ≠ 0 :=
      ne_of_gt (by linarith)
    rw [if_neg hr]
    unfold pyPow
    rw [if_neg (by rintro ⟨hz, _⟩; rw [hz] at hb; norm_num at hb)]
    refine ⟨pyRound (amount * (rate / 100 / 12) * ((1 + rate / 100 / 12) ^ months) /
        ((1 + rate / 100 / 12) ^ months - 1)) 2, ?_⟩
    show (if (1 + rate / 100 / 12) ^ months - 1 = 0 then
        Except.error PyErr.zeroDivision
      else Except.ok (pyRound (amount * (rate / 100 / 12) *
        ((1 + rate / 100 / 12) ^ months) /
        ((1 + rate / 100 / 12) ^ months - 1)) 2)) = _
    rw [if_neg hden]

/-! ## Claim C1 -/

/-- C1 counterexample: for principal = 0.06, months = 10, rate = 0 the code
produces a schedule whose principal portions sum to 0.09, which differs from
the principal by 0.03 > 0.01.  (The payment 0.01 over-rounds 0.006; once the
balance clamps to 0 early, every later non-final row still books the full
payment as principal.)  So the claim as stated is false. -/
theorem c1_sum_principals_counterexample :
    (calculate_amortization_schedule (6/100) 10 0).toOption.map sumPrincipals
      = some (9/100) ∧
    (calculate_amortization_schedule (6/100) 10 0).toOption.map List.length
      = some 10 ∧
    ¬ |(9 : ℚ)/100 - 6/100| ≤ 1/100 := by
  refine ⟨by decide, by decide, by decide⟩

/-- C1 (amended): for every principal > 0, months ≥ 1 and rate ≥ 0 the
schedule has exactly `months` entries and its final balance is exactly 0;
and PROVIDED no balance before the final month falls below 0.01 (so the
early-clamp at line 52 of the source never fires before the last month),
the principal portions sum exactly to the principal (hence within 0.01). -/
theorem c1_schedule_amended
    (amount : ℚ) (months : ℤ) (rate : ℚ)
    (h1 : 1 ≤ months) (h2 : 0 < amount) (h3 : 0 ≤ rate) :
    ∃ s, calculate_amortization_schedule amount months rate = .ok s ∧
      (s.length : ℤ) = months ∧
      (s.getLast?).map Entry.balance = some 0 ∧
      ((∀ e ∈ s.dropLast, 1/100 ≤ e.balance) → sumPrincipals s = amount) := by
  obtain ⟨p, hp⟩ := monthly_payment_ok amount months rate h1 h3
  obtain ⟨k, hk⟩ : ∃ k, months.toNat = k + 1 := ⟨months.toNat - 1, by omega⟩
  refine ⟨amortRun (rate/100/12) months.toNat p amount 1, ?_, ?_, ?_, ?_⟩
  · unfold calculate_amortization_schedule
    rw [hp]
  · rw [amortRun_length]
    exact Int.toNat_of_nonneg (by omega)
  · rw [hk]
    exact amortRun_getLast_balance _ _ _ _ _
  · rw [hk]
    exact amortRun_sum_principal _ _ _ _ _

/-- C1 witness: the amended theorem applied at principal = 100, months = 2,
rate = 0. -/
theorem c1_schedule_amended_witness :
    (1 : ℤ) ≤ 2 ∧ (0 : ℚ) < 100 ∧ (0 : ℚ) ≤ 0 ∧
    (∃ s, calculate_amortization_schedule 100 2 0 = .ok s ∧
      (s.length : ℤ) = 2 ∧
      (s.getLast?).map Entry.balance = some 0 ∧
      ((∀ e ∈ s.dropLast, 1/100 ≤ e.balance) → sumPrincipals s = 100)) :=
  ⟨by decide, by decide, by decide,
    c1_schedule_amended 100 2 0 (by decide) (by decide) (by decide)⟩

/-! ## Claim C2 -/

/-- C2 counterexample: for principal = 0.25 and months = 2 at rate 0 the
code returns round(0.125, 2) = 0.12 (Python round is round-half-to-even),
while round-half-up of 0.125 is 0.13.  0.125 is exactly representable in
binary, so the running code hits this tie exactly.  The claimed round-half-up
semantics is therefore false. -/
theorem c2_round_half_up_counterexample :
    (monthly_payment (1/4) 2 0).toOption = some (12/100) ∧
    specRoundHalfUp2 ((1/4) / 2) = 13/100 ∧
    (12/100 : ℚ) ≠ 13/100 := by
  refine ⟨by decide, by decide, by decide⟩

/-- C2 (amended): with rate 0 the payment is principal/months rounded to
2 decimals by Python round (round-half-to-even); every row has interest 0;
every non-final row books exactly that payment; the final row absorbs the
residue so the closing balance is exactly 0. -/
theorem c2_zero_rate_amended (amount : ℚ) (months : ℤ)
    (h1 : 1 ≤ months) (h2 : 0 < amount) :
    monthly_payment amount months 0 = .ok (pyRound (amount / (months:ℚ)) 2) ∧
    ∃ s, calculate_amortization_schedule amount months 0 = .ok s ∧
      (∀ e ∈ s, e.interest = 0) ∧
      (∀ e ∈ s.dropLast, e.payment = pyRound (amount / (months:ℚ)) 2) ∧
      (s.getLast?).map Entry.balance = some 0 := by
  have hr0 : (0:ℚ) / 100 / 12 = 0 := by norm_num
  have hp : monthly_payment amount months 0 =
      .ok (pyRound (amount / (months:ℚ)) 2) := by
    unfold monthly_payment
    rw [if_pos hr0, if_neg (by omega : ¬ months = 0)]
  obtain ⟨k, hk⟩ : ∃ k, months.toNat = k + 1 := ⟨months.toNat - 1, by omega⟩
  refine ⟨hp, amortRun 0 months.toNat (pyRound (amount / (months:ℚ)) 2) amount 1,
    ?_, ?_, ?_, ?_⟩
  · unfold calculate_amortization_schedule
    rw [hp, hr0]
  · exact amortRun_interest_zero _ _ _ _
  · exact amortRun_dropLast_payment _ _ _ _ _
  · rw [hk]
    exact amortRun_getLast_balance _ _ _ _ _

/-- C2 witness: the amended theorem applied at principal = 100, months = 3
(payment 33.33, the last month absorbing the extra cent). -/
theorem c2_zero_rate_amended_witness :
    (1 : ℤ) ≤ 3 ∧ (0 : ℚ) < 100 ∧
    (monthly_payment 100 3 0 = .ok (pyRound ((100:ℚ) / 3) 2) ∧
     ∃ s, calculate_amortization_schedule 100 3 0 = .ok s ∧
       (∀ e ∈ s, e.interest = 0) ∧
       (∀ e ∈ s.dropLast, e.payment = pyRound ((100:ℚ) / 3) 2) ∧
       (s.getLast?).map Entry.balance = some 0) :=
  ⟨by decide, by decide, c2_zero_rate_amended 100 3 (by decide) (by decide)⟩

/-! ## Claim C3 -/

/-- C3 counterexample: on principal = 15000, months = 36, rate = 7.86 the
code computes a monthly payment of 469.08, not the claimed 467.15. -/
theorem c3_payment_counterexample :
    (monthly_payment 15000 36 (786/100)).toOption = some (46908/100) ∧
    (46908/100 : ℚ) ≠ 46715/100 := by
  refine ⟨by decide, by decide⟩

/-- C3 (amended): on principal = 15000, months = 36, rate = 7.86 the monthly
payment is 469.08 (the annuity value 469.0773... rounded to 2 decimals), and
the schedule has exactly 36 entries with final balance exactly 0. -/
theorem c3_scenario_amended :
    (monthly_payment 15000 36 (786/100)).toOption = some (46908/100) ∧
    ∃ s, calculate_amortization_schedule 15000 36 (786/100) = .ok s ∧
      s.length = 36 ∧
      (s.getLast?).map Entry.balance = some 0 := by
  have hp : monthly_payment 15000 36 (786/100) = .ok (46908/100) :=
    except_toOption_eq_some _ _ (by decide)
  refine ⟨by decide, amortRun ((786/100)/100/12) 36 (46908/100) 15000 1, ?_, ?_, ?_⟩
  · unfold calculate_amortization_schedule
    rw [hp]
    rfl
  · exact amortRun_length _ _ _ _ _
  · exact amortRun_getLast_balance _ 35 _ _ _

/-! ## Claim C4 -/

/-- C4 counterexample: monthly_payment performs no validation at all.  At
months = −1 (rate 0) it returns −100.0 without raising anything, and at a
negative rate −6 it happily returns 8.06; no InvalidTermsError exists in the
code. -/
theorem c4_no_error_counterexample :
    (monthly_payment 100 (-1) 0).toOption = some (-100) ∧
    (monthly_payment 100 12 (-6)).toOption = some (403/50) := by
  refine ⟨by decide, by decide⟩

/-- C4 (amended): the code has no InvalidTermsError and validates nothing
before computing.  months = 0 raises ZeroDivisionError from the division
itself (for every amount and rate); months < 0, negative rates and
non-positive amounts are accepted and produce a numeric result. -/
theorem c4_no_validation_amended :
    (∀ (a r : ℚ), monthly_payment a 0 r = .error .zeroDivision) ∧
    (monthly_payment 100 (-1) 0).toOption = some (-100) ∧
    (monthly_payment 100 12 (-6)).toOption = some (403/50) ∧
    (monthly_payment (-50) 10 0).toOption = some (-5) := by
  refine ⟨?_, by decide, by decide, by decide⟩
  intro a r
  unfold monthly_payment
  by_cases hr : r / 100 / 12 = 0
  · rw [if_pos hr, if_pos rfl]
  · rw [if_neg hr]
    unfold pyPow
    rw [if_neg (by rintro ⟨_, hlt⟩; omega)]
    show (if (1 + r / 100 / 12) ^ (0:ℤ) - 1 = 0 then
        Except.error PyErr.zeroDivision
      else Except.ok (pyRound (a * (r / 100 / 12) *
        ((1 + r / 100 / 12) ^ (0:ℤ)) /
        ((1 + r / 100 / 12) ^ (0:ℤ) - 1)) 2)) = _
    rw [if_pos (by rw [zpow_zero]; ring)]

/-! ## Claim C5 -/

/-- C5: the cell-index-to-center mapping used for overlay asset placement is
a pure function of the cell index (hence deterministic) and satisfies the
claimed formulas: row = (cell−1) div 25, col = (cell−1) mod 25,
x = (col+0.5)·(210/25) mm, y = 297 − (row+0.5)·(297/35) mm; in particular
cell 1 maps to (cellWidth/2, pageHeight − cellHeight/2). -/
theorem c5_cell_center_mapping :
    (∀ cell : ℕ, cellCenter cell = specCellToCenter cell) ∧
    cellCenter 1 = (cell_width_mm / 2, 297 - cell_height_mm / 2) := by
  refine ⟨fun cell => rfl, by decide⟩

/-! ## Claim C10 -/

theorem add_images_eq_of_overlay_error
    (loadImage : String → Except String ImageFile)
    (merge : String → List (List DrawCmd) → Except String String)
    (pdf_bytes : String) (template_name : String)
    (h : ∃ e, overlayPages loadImage template_name = .error e) :
    _add_images_to_pdf loadImage merge pdf_bytes template_name = pdf_bytes := by
  obtain ⟨e, he⟩ := h
  unfold _add_images_to_pdf
  rw [show (do
      let pages ← overlayPages loadImage template_name
      merge pdf_bytes pages : Except String String) =
    (overlayPages loadImage template_name).bind (merge pdf_bytes) from rfl]
  rw [he]
  rfl

/-- C10: if any overlay asset file the template needs cannot be loaded, the
composer neither raises (it is a total function) nor corrupts the base
document: it returns the rasterised base PDF bytes unchanged instead of the
merged result. -/
theorem c10_overlay_fail_soft
    (loadImage : String → Except String ImageFile)
    (merge : String → List (List DrawCmd) → Except String String)
    (pdf_bytes : String) (template_name : String)
    (h : ∃ a ∈ requiredAssets template_name, ∃ msg, loadImage a = .error msg) :
    _add_images_to_pdf loadImage merge pdf_bytes template_name = pdf_bytes := by
  apply add_images_eq_of_overlay_error
  obtain ⟨a, ha, msg, hmsg⟩ := h
  unfold requiredAssets at ha
  unfold overlayPages
  by_cases hg : template_name = "garanzia"
  · rw [if_pos hg] at ha ⊢
    cases hc : loadImage "company.png" with
    | error e => exact ⟨e, rfl⟩
    | ok c =>
      cases hs : loadImage "seal.png" with
      | error e => exact ⟨e, rfl⟩
      | ok s =>
        cases hg1 : loadImage "sing_1.png" with
        | error e => exact ⟨e, rfl⟩
        | ok g1 =>
          exfalso
          simp only [List.mem_cons, List.not_mem_nil, or_false] at ha
          rcases ha with rfl | rfl | rfl
          · rw [hc] at hmsg; cases hmsg
          · rw [hs] at hmsg; cases hmsg
          · rw [hg1] at hmsg; cases hmsg
  · rw [if_neg hg] at ha ⊢
    by_cases hca : template_name = "carta" ∨ template_name = "approvazione"
    · rw [if_pos hca] at ha ⊢
      cases hc : loadImage "company.png" with
      | error e => exact ⟨e, rfl⟩
      | ok c =>
        cases hs : loadImage "seal.png" with
        | error e => exact ⟨e, rfl⟩
        | ok s =>
          cases hg1 : loadImage "sing_1.png" with
          | error e => exact ⟨e, rfl⟩
          | ok g1 =>
            exfalso
            simp only [List.mem_cons, List.not_mem_nil, or_false] at ha
            rcases ha with rfl | rfl | rfl
            · rw [hc] at hmsg; cases hmsg
            · rw [hs] at hmsg; cases hmsg
            · rw [hg1] at hmsg; cases hmsg
    · rw [if_neg hca] at ha ⊢
      by_cases hco : template_name = "contratto"
      · rw [if_pos hco] at ha ⊢
        cases hc : loadImage "company.png" with
        | error e => exact ⟨e, rfl⟩
        | ok c =>
          cases hl : loadImage "logo.png" with
          | error e => exact ⟨e, rfl⟩
          | ok l =>
            exfalso
            simp only [List.mem_cons, List.not_mem_nil, or_false] at ha
            rcases ha with rfl | rfl
            · rw [hc] at hmsg; cases hmsg
            · rw [hl] at hmsg; cases hmsg
      · rw [if_neg hco] at ha
        simp at ha
/-- C10 witness: a loader that fails on every file, applied to the garanzia
overlay: the base bytes pass through unchanged. -/
theorem c10_overlay_fail_soft_witness :
    (∃ a ∈ requiredAssets "garanzia",
      ∃ msg, (fun _ => (.error "io" : Except String ImageFile)) a = .error msg) ∧
    _add_images_to_pdf (fun _ => .error "io")
      (fun b _ => .ok (b ++ "+overlay")) "BASEPDF" "garanzia" = "BASEPDF" :=
  ⟨⟨"company.png", by decide, "io", rfl⟩,
    c10_overlay_fail_soft _ _ _ _ ⟨"company.png", by decide, "io", rfl⟩⟩

/-! ## Except helper lemmas for the pipeline proofs -/

theorem except_bind_ok {ε α β : Type} (a : α) (f : α → Except ε β) :
    (Except.ok a >>= f) = f a := rfl

theorem except_bind_error {ε α β : Type} (e : ε) (f : α → Except ε β) :
    ((Except.error e : Except ε α) >>= f) = Except.error e := rfl

theorem except_pure_eq_ok {ε α : Type} (a : α) :
    (pure a : Except ε α) = Except.ok a := rfl

/-! ## List-level lemmas for the ordered substitution (claim C8) -/

theorem lstartsWith_xxx_false (c : Char) (cs : List Char) (hc : c ≠ 'X') :
    lstartsWith ['X', 'X', 'X'] (c :: cs) = false := by
  simp only [lstartsWith, Bool.and_eq_false_imp, decide_eq_true_eq]
  intro h
  exact absurd h.symm hc

theorem lreplaceFirst_cons_noX (v : List Char) (c : Char) (cs : List Char)
    (hc : c ≠ 'X') :
    lreplaceFirst 'X' ['X', 'X'] v (c :: cs) =
      c :: lreplaceFirst 'X' ['X', 'X'] v cs := by
  rw [lreplaceFirst, if_neg]
  rw [lstartsWith_xxx_false c cs hc]
  exact Bool.false_ne_true

theorem lreplaceFirst_prepend (v pre t : List Char) (h : ∀ c ∈ pre, c ≠ 'X') :
    lreplaceFirst 'X' ['X', 'X'] v (pre ++ t) =
      pre ++ lreplaceFirst 'X' ['X', 'X'] v t := by
  induction pre with
  | nil => simp
  | cons c cs ih =>
    simp only [List.cons_append]
    rw [lreplaceFirst_cons_noX v c _ (h c (List.mem_cons_self c cs))]
    rw [ih (fun d hd => h d (List.mem_cons_of_mem c hd))]

theorem lreplaceFirst_at_token (v t : List Char) :
    lreplaceFirst 'X' ['X', 'X'] v ('X' :: 'X' :: 'X' :: t) = v ++ t := by
  rw [lreplaceFirst, if_pos]
  · simp
  · simp [lstartsWith]

theorem pyReplaceFirst_xxx (s v : String) :
    pyReplaceFirst s "XXX" v =
      ⟨lreplaceFirst 'X' ['X', 'X'] v.data s.data⟩ := rfl

theorem string_data_append (s t : String) :
    (s ++ t).data = s.data ++ t.data := rfl

theorem noX_chars (s : String) (hs : noX s = true) : ∀ c ∈ s.data, c ≠ 'X' := by
  intro c hc
  have := List.all_eq_true.mp hs c hc
  simpa using this

/-- The induction core for claim C8: consuming values one by one against a
canonical template, under a prefix already free of X. -/
theorem applyReps_interleave :
    ∀ (vals segs : List String) (pre : List Char),
    segs.length = vals.length + 1 →
    (∀ c ∈ pre, c ≠ 'X') →
    (∀ s ∈ segs, noX s = true) →
    (∀ v ∈ vals, noX v = true) →
    applyReplacements (vals.map fun v => ("XXX", v))
        ⟨pre ++ (interleaveX segs).data⟩ =
      ⟨pre ++ (specSubstituted segs vals).data⟩ := by
  intro vals
  induction vals with
  | nil =>
    intro segs pre hlen hpre hsegs hvals
    match segs, hlen with
    | [s], _ =>
      simp [applyReplacements, interleaveX, specSubstituted]
  | cons v vs ih =>
    intro segs pre hlen hpre hsegs hvals
    match segs, hlen with
    | s0 :: s1 :: rest, hlen =>
      have hnoX0 : ∀ c ∈ s0.data, c ≠ 'X' :=
        noX_chars s0 (hsegs s0 (List.mem_cons_self _ _))
      have hnoXv : ∀ c ∈ v.data, c ≠ 'X' :=
        noX_chars v (hvals v (List.mem_cons_self _ _))
      have step1 : interleaveX (s0 :: s1 :: rest) =
          s0 ++ "XXX" ++ interleaveX (s1 :: rest) := rfl
      have hfold : applyReplacements (((v :: vs).map fun v => ("XXX", v)))
          (⟨pre ++ (interleaveX (s0 :: s1 :: rest)).data⟩ : String) =
        applyReplacements (vs.map fun v => ("XXX", v))
          (pyReplaceFirst ⟨pre ++ (interleaveX (s0 :: s1 :: rest)).data⟩ "XXX" v) := by
        simp [applyReplacements]
      rw [hfold, pyReplaceFirst_xxx]
      have hdata : (pre ++ (interleaveX (s0 :: s1 :: rest)).data) =
          (pre ++ s0.data) ++ ('X' :: 'X' :: 'X' :: (interleaveX (s1 :: rest)).data) := by
        rw [step1]
        simp [string_data_append]
      rw [hdata]
      rw [lreplaceFirst_prepend _ _ _ (by
        intro c hc
        rcases List.mem_append.mp hc with h1 | h2
        · exact hpre c h1
        · exact hnoX0 c h2)]
      rw [lreplaceFirst_at_token]
      have hassoc : (pre ++ s0.data) ++ (v.data ++ (interleaveX (s1 :: rest)).data) =
          (pre ++ s0.data ++ v.data) ++ (interleaveX (s1 :: rest)).data := by
        simp
      rw [hassoc]
      have := ih (s1 :: rest) (pre ++ s0.data ++ v.data)
        (by simpa using hlen)
        (by
          intro c hc
          rcases List.mem_append.mp hc with h1 | h2
          · rcases List.mem_append.mp h1 with h3 | h4
            · exact hpre c h3
            · exact hnoX0 c h4
          · exact hnoXv c h2)
        (fun s hs => hsegs s (List.mem_cons_of_mem _ hs))
        (fun w hw => hvals w (List.mem_cons_of_mem _ hw))
      rw [this]
      have : specSubstituted (s0 :: s1 :: rest) (v :: vs) =
          s0 ++ v ++ specSubstituted (s1 :: rest) vs := rfl
      rw [this]
      simp [string_data_append]

/-! ## Claim C8 -/

/-- C8 counterexample: when a replacement value itself contains the token,
the first-occurrence-consumed loop feeds a later value into an EARLIER
occurrence.  Template XXX-XXX with ordered values [XXX, B]: the code yields
B-XXX, while the claimed i-th-occurrence-gets-i-th-value semantics yields
XXX-B. -/
theorem c8_ordered_substitution_counterexample :
    applyReplacements [("XXX", "XXX"), ("XXX", "B")] (interleaveX ["", "-", ""])
      = "B-XXX" ∧
    specSubstituted ["", "-", ""] ["XXX", "B"] = "XXX-B" ∧
    ("B-XXX" : String) ≠ "XXX-B" := by
  refine ⟨by decide, by decide, by decide⟩

/-- C8 (amended): the loop resolves XXX in the pre-declared order, each
replacement consuming the first remaining occurrence; provided neither the
template segments nor the supplied values contain the letter X (so no value
can contain or help form a token), the i-th occurrence of XXX receives the
i-th value of the ordered list. -/
theorem c8_ordered_substitution_amended (segs vals : List String)
    (hlen : segs.length = vals.length + 1)
    (hsegs : ∀ s ∈ segs, noX s = true)
    (hvals : ∀ v ∈ vals, noX v = true) :
    applyReplacements (vals.map fun v => ("XXX", v)) (interleaveX segs) =
      specSubstituted segs vals := by
  have := applyReps_interleave vals segs [] hlen (by simp) hsegs hvals
  simpa using this

/-- C8 witness: the amended theorem applied to template aXXX-XXXb with
values [1, 2]. -/
theorem c8_ordered_substitution_amended_witness :
    (["a", "-", "b"] : List String).length = (["1", "2"] : List String).length + 1 ∧
    (∀ s ∈ (["a", "-", "b"] : List String), noX s = true) ∧
    (∀ v ∈ (["1", "2"] : List String), noX v = true) ∧
    applyReplacements ((["1", "2"] : List String).map fun v => ("XXX", v))
        (interleaveX ["a", "-", "b"]) =
      specSubstituted ["a", "-", "b"] ["1", "2"] :=
  ⟨by decide, by decide, by decide,
    c8_ordered_substitution_amended ["a", "-", "b"] ["1", "2"]
      (by decide) (by decide) (by decide)⟩

/-! ## Claim C7 -/

/-- C7 counterexample: the garanzia structural corrections are not
idempotent.  On the one-tag template the first application injects the CSS
block before the head close; the second application injects it again. -/
theorem c7_idempotence_counterexample :
    fix_html_layout "garanzia" (fix_html_layout "garanzia" "</head>") ≠
      fix_html_layout "garanzia" "</head>" := by decide

/-- C7 (amended): the corrections are NOT idempotent: every application
re-injects the CSS block before each remaining head close.  Concretely, for
the garanzia rule set on the template consisting of the head close tag, one
application yields css ++ head close, and a second application yields
css ++ css ++ head close, a strictly different text. -/
theorem c7_css_reinjection_amended :
    fix_html_layout "garanzia" "</head>" = css_garanzia ++ "</head>" ∧
    fix_html_layout "garanzia" (css_garanzia ++ "</head>") =
      css_garanzia ++ (css_garanzia ++ "</head>") ∧
    css_garanzia ++ (css_garanzia ++ "</head>") ≠ css_garanzia ++ "</head>" := by
  refine ⟨by decide, by decide, by decide⟩

/-! ## Bind-chain helpers for the entry-point proofs -/

theorem except_bind_eq_ok {ε α β : Type} {x : Except ε α} {f : α → Except ε β}
    {b : β} : (x >>= f) = .ok b ↔ ∃ a, x = .ok a ∧ f a = .ok b := by
  cases x with
  | error e => simp [except_bind_error]
  | ok a => simp [except_bind_ok]

theorem getKey_eq_ok {α : Type} {v : Option α} {k : String} {a : α} :
    getKey v k = .ok a ↔ v = some a := by
  cases v <;> simp [getKey]

/-! ## Claim C6 -/

theorem generate_pdf_carta_missing_tan
    (render : String → Except PyErr String)
    (loadImage : String → Except String ImageFile)
    (merge : String → List (List DrawCmd) → Except String String)
    (image_to_base64 : String → Option String)
    (today html : String) (d : LoanData) (h : d.tan = none) :
    ∃ f, _generate_pdf_with_images render loadImage merge image_to_base64
        today html "carta" d = .error (.keyError f) := by
  unfold _generate_pdf_with_images
  rw [if_neg (by decide : ¬ ("carta" : String) = "contratto"),
      if_pos (rfl : ("carta" : String) = "carta")]
  cases hname : d.name with
  | none =>
    exact ⟨"name", by simp [getKey, except_bind_error, except_bind_ok]⟩
  | some nm =>
    cases ham : d.amount with
    | none =>
      exact ⟨"amount", by simp [getKey, except_bind_error, except_bind_ok]⟩
    | some a =>
      refine ⟨"tan", ?_⟩
      rw [h]
      simp [getKey, except_bind_error, except_bind_ok]

/-- C6: every carta generation request whose input mapping lacks the
nominal-rate field tan fails with the missing-field KeyError (the error
kind spec section 7 names TemplateBindingError) and produces no output: no
byte stream is returned to the caller. -/
theorem c6_carta_missing_tan_fails
    (render : String → Except PyErr String)
    (loadImage : String → Except String ImageFile)
    (merge : String → List (List DrawCmd) → Except String String)
    (image_to_base64 : String → Option String)
    (today template : String) (d : LoanData) (h : d.tan = none) :
    ∃ f, generate_carta_pdf render loadImage merge image_to_base64 today
        template d = .error (.keyError f) := by
  unfold generate_carta_pdf
  cases hpay : d.payment with
  | none =>
    cases ham : d.amount with
    | none =>
      exact ⟨"amount", by simp [getKey, except_bind_error, except_bind_ok]⟩
    | some a =>
      cases hdur : d.duration with
      | none =>
        exact ⟨"duration", by simp [getKey, ham, except_bind_error,
          except_bind_ok]⟩
      | some du =>
        refine ⟨"tan", ?_⟩
        rw [h]
        simp [getKey, ham, hdur, except_bind_error, except_bind_ok]
  | some p =>
    obtain ⟨f, hf⟩ := generate_pdf_carta_missing_tan render loadImage merge
      image_to_base64 today (fix_html_layout "carta" template) d h
    refine ⟨f, ?_⟩
    simp [hf, except_bind_error, except_bind_ok]

/-- C6 witness: a concrete carta request with every field but tan present
fails with KeyError "tan". -/
theorem c6_carta_missing_tan_fails_witness :
    ({ name := some "Mario", amount := some 100, tan := none
       duration := some 10, payment := some 1 } : LoanData).tan = none ∧
    ∃ f, generate_carta_pdf (fun s => .ok s) (fun _ => .error "io")
        (fun b _ => .ok b) (fun _ => none) "01/01/2026" ""
        { name := some "Mario", amount := some 100, tan := none
          duration := some 10, payment := some 1 } =
      .error (.keyError f) :=
  ⟨rfl, c6_carta_missing_tan_fails _ _ _ _ _ _ _ rfl⟩

/-! ## Claim C9 -/

/-- C9 counterexample: a successful carta generation writes the computed
payment back into the caller's mapping, so the mapping after the call
differs from the mapping passed in. -/
theorem c9_input_mutation_counterexample :
    (generate_carta_pdf (fun s => .ok s) (fun _ => .error "io")
        (fun b _ => .ok b) (fun _ => none) "01/01/2026" ""
        { name := some "Mario", amount := some 100, tan := some 5
          duration := some 10 }).toOption =
      some ("", { name := some "Mario", amount := some 100, tan := some 5
                  duration := some 10, payment := some (1023/100) }) ∧
    ({ name := some "Mario", amount := some 100, tan := some 5
       duration := some 10, payment := some (1023/100) } : LoanData) ≠
      { name := some "Mario", amount := some 100, tan := some 5
        duration := some 10 } := by
  refine ⟨by decide, by decide⟩

/-- C9 (amended): generate_approvazione_pdf returns the caller's mapping
unchanged; generate_carta_pdf changes only the payment entry and only when
it was absent; generate_contratto_pdf does the same and additionally always
(re)writes the derived amortization_table entry; no other key is added,
removed or rewritten. -/
theorem c9_entry_point_mutation_amended :
    (∀ render li mg im today tpl d out d2,
      generate_approvazione_pdf render li mg im today tpl d = .ok (out, d2) →
      d2 = d) ∧
    (∀ render li mg im today tpl d out d2,
      generate_carta_pdf render li mg im today tpl d = .ok (out, d2) →
      d2.name = d.name ∧ d2.amount = d.amount ∧ d2.tan = d.tan ∧
      d2.taeg = d.taeg ∧ d2.duration = d.duration ∧
      d2.amortization_table = d.amortization_table ∧
      (d.payment.isSome = true → d2.payment = d.payment)) ∧
    (∀ render li mg im today tpl d out d2,
      generate_contratto_pdf render li mg im today tpl d = .ok (out, d2) →
      d2.name = d.name ∧ d2.amount = d.amount ∧ d2.tan = d.tan ∧
      d2.taeg = d.taeg ∧ d2.duration = d.duration ∧
      (d.payment.isSome = true → d2.payment = d.payment) ∧
      ∃ tbl, d2.amortization_table = some tbl) := by
  refine ⟨?_, ?_, ?_⟩
  · intro render li mg im today tpl d out d2 hok
    simp only [generate_approvazione_pdf] at hok
    rw [except_bind_eq_ok] at hok
    obtain ⟨o, _, hpair⟩ := hok
    rw [except_pure_eq_ok] at hpair
    injection hpair with hpair
    injection hpair with h1 h2
    exact h2.symm
  · intro render li mg im today tpl d out d2 hok
    simp only [generate_carta_pdf] at hok
    cases hpay : d.payment with
    | some p =>
      rw [hpay] at hok
      simp only [Option.isNone_some, Bool.false_eq_true, if_false] at hok
      rw [except_bind_eq_ok] at hok
      obtain ⟨y, hy, hok⟩ := hok
      rw [except_pure_eq_ok] at hy
      injection hy with hy
      subst hy
      rw [except_bind_eq_ok] at hok
      obtain ⟨o, _, hpair⟩ := hok
      rw [except_pure_eq_ok] at hpair
      injection hpair with hpair
      injection hpair with h1 h2
      subst h2
      exact ⟨rfl, rfl, rfl, rfl, rfl, rfl, fun _ => hpay⟩
    | none =>
      rw [hpay] at hok
      simp only [Option.isNone_none, if_true] at hok
      rw [except_bind_eq_ok] at hok
      obtain ⟨a, _, hok⟩ := hok
      rw [except_bind_eq_ok] at hok
      obtain ⟨du, _, hok⟩ := hok
      rw [except_bind_eq_ok] at hok
      obtain ⟨tn, _, hok⟩ := hok
      rw [except_bind_eq_ok] at hok
      obtain ⟨p, _, hok⟩ := hok
      rw [except_bind_eq_ok] at hok
      obtain ⟨y, hy, hok⟩ := hok
      rw [except_pure_eq_ok] at hy
      injection hy with hy
      subst hy
      rw [except_bind_eq_ok] at hok
      obtain ⟨o, _, hpair⟩ := hok
      rw [except_pure_eq_ok] at hpair
      injection hpair with hpair
      injection hpair with h1 h2
      subst h2
      refine ⟨rfl, rfl, rfl, rfl, rfl, rfl, ?_⟩
      intro hcontra
      cases hcontra
  · intro render li mg im today tpl d out d2 hok
    simp only [generate_contratto_pdf] at hok
    cases hpay : d.payment with
    | some p =>
      rw [hpay] at hok
      simp only [Option.isNone_some, Bool.false_eq_true, if_false] at hok
      rw [except_bind_eq_ok] at hok
      obtain ⟨y, hy, hok⟩ := hok
      rw [except_pure_eq_ok] at hy
      injection hy with hy
      subst hy
      rw [except_bind_eq_ok] at hok
      obtain ⟨a, _, hok⟩ := hok
      rw [except_bind_eq_ok] at hok
      obtain ⟨du, _, hok⟩ := hok
      rw [except_bind_eq_ok] at hok
      obtain ⟨tn, _, hok⟩ := hok
      rw [except_bind_eq_ok] at hok
      obtain ⟨sched, _, hok⟩ := hok
      rw [except_bind_eq_ok] at hok
      obtain ⟨o, _, hpair⟩ := hok
      rw [except_pure_eq_ok] at hpair
      injection hpair with hpair
      injection hpair with h1 h2
      subst h2
      exact ⟨rfl, rfl, rfl, rfl, rfl, fun _ => hpay, ⟨_, rfl⟩⟩
    | none =>
      rw [hpay] at hok
      simp only [Option.isNone_none, if_true] at hok
      rw [except_bind_eq_ok] at hok
      obtain ⟨a0, _, hok⟩ := hok
      rw [except_bind_eq_ok] at hok
      obtain ⟨du0, _, hok⟩ := hok
      rw [except_bind_eq_ok] at hok
      obtain ⟨tn0, _, hok⟩ := hok
      rw [except_bind_eq_ok] at hok
      obtain ⟨p, _, hok⟩ := hok
      rw [except_bind_eq_ok] at hok
      obtain ⟨y, hy, hok⟩ := hok
      rw [except_pure_eq_ok] at hy
      injection hy with hy
      subst hy
      rw [except_bind_eq_ok] at hok
      obtain ⟨a, _, hok⟩ := hok
      rw [except_bind_eq_ok] at hok
      obtain ⟨du, _, hok⟩ := hok
      rw [except_bind_eq_ok] at hok
      obtain ⟨tn, _, hok⟩ := hok
      rw [except_bind_eq_ok] at hok
      obtain ⟨sched, _, hok⟩ := hok
      rw [except_bind_eq_ok] at hok
      obtain ⟨o, _, hpair⟩ := hok
      rw [except_pure_eq_ok] at hpair
      injection hpair with hpair
      injection hpair with h1 h2
      subst h2
      refine ⟨rfl, rfl, rfl, rfl, rfl, ?_, ⟨_, rfl⟩⟩
      intro hcontra
      cases hcontra

/-- C9 witness: the amended theorem's approvazione part applied to a
concrete successful run. -/
theorem c9_entry_point_mutation_amended_witness :
    generate_approvazione_pdf (fun s => .ok s) (fun _ => .error "io")
      (fun b _ => .ok b) (fun _ => none) "01/01/2026" ""
      { name := some "Mario", amount := some 100, tan := some 5 } =
      .ok ("", { name := some "Mario", amount := some 100, tan := some 5 }) ∧
    ({ name := some "Mario", amount := some 100, tan := some 5 } : LoanData) =
      { name := some "Mario", amount := some 100, tan := some 5 } :=
  ⟨except_toOption_eq_some _ _ (by decide),
   c9_entry_point_mutation_amended.1 (fun s => .ok s) (fun _ => .error "io")
     (fun b _ => .ok b) (fun _ => none) "01/01/2026" ""
     { name := some "Mario", amount := some 100, tan := some 5 } ""
     { name := some "Mario", amount := some 100, tan := some 5 }
     (except_toOption_eq_some _ _ (by decide))⟩

end ARPrestito
